import Mathlib

/-!
# Verification of the mcp-iot-poc tool-calling orchestration engine

Shallow embedding of the climate-agent orchestration code:

* `src/agent/src/climate_agent/providers/ollama.py` (`OllamaProvider`)
* `src/agent/src/climate_agent/providers/openai.py` (`OpenAIProvider`)
* `src/agent/src/climate_agent/providers/anthropic.py` (`AnthropicProvider`)
* `src/agent/src/climate_agent/providers/google.py` (`GoogleProvider`, pure
  schema-conversion part)
* `src/agent/src/climate_agent/mcp_client.py` (`MCPClient`)
* `src/agent/src/climate_agent/main.py` (`ClimateAgent.execute_tool`)

Modelling conventions:

* Python JSON values are modelled by the inductive type `J` (numbers as `Int`;
  no claim here depends on float payloads).
* `json.loads` / `json.dumps` / `str()` are modelled by an explicit environment
  `PyEnv`; `jloads` returns `Except String J`, the `.error` case standing for a
  raised `json.JSONDecodeError` carrying `str(e)`.
* Each provider's remote model is modelled as the sequence of responses the
  server returns, indexed by the chat-call number (`oracle : Nat → …`); the
  tool-executor callback is a function `String → J → J`.
* The HTTP transport under `MCPClient` is modelled as the sequence of network
  outcomes per attempt (`net : Nat → NetOutcome`).
* The loops are embedded as fuel-based recursion: the fuel is exactly Python's
  `for iteration in range(max_iterations)` counter.
-/

/-- JSON-like value (Python dicts are association lists in insertion order). -/
inductive J where
  | null : J
  | bool : Bool → J
  | num : Int → J
  | str : String → J
  | arr : List J → J
  | obj : List (String × J) → J
deriving Repr

/-- Environment for Python library primitives used by the engine. -/
structure PyEnv where
  /-- `json.loads`; the error case models a raised `JSONDecodeError` with `str(e)`. -/
  jloads : String → Except String J
  /-- `json.dumps` on a dict value. -/
  jdumps : J → String
  /-- Python `str()` on a non-dict value. -/
  pstr : J → String

/-- A raw tool call as it appears in an Ollama chat response:
`tool_call["function"]` with `name` and `arguments` (read by the source via
`.get("name", "")` / `.get("arguments", {})`; a missing key is represented by
the corresponding default). `arguments` can be a JSON string (`J.str`) or a
structured value. -/
structure WireCall where
  name : String
  arguments : J

/-- Outcome of one `OllamaProvider.chat` call: either the error dict
(`{"error": ..., "content": ""}`, from a timeout or other exception, or an
HTTP failure) or the normalized success dict
`{"role": ..., "content": ..., "tool_calls": ...}`. -/
inductive ChatOutcome where
  | failure (err : String)
  | success (content : String) (toolCalls : List WireCall)

/-- Conversation message as accumulated by `OllamaProvider.chat_with_tools`. -/
inductive OMsg where
  | user (content : String)
  | assistant (content : String) (toolCalls : List WireCall)
  | tool (content : String)

/-- One entry of `tool_calls_made`:
`{"tool": ..., "arguments": ..., "result": ...}`. -/
structure ToolRecord where
  tool : String
  arguments : J
  result : J

/-- The dict returned by `chat_with_tools`. `iterations` is `none` exactly when
the Python dict has no `"iterations"` key (the error return), and `error` is
`none` when it has no `"error"` key. -/
structure RunResult where
  finalResponse : String
  toolCallsMade : List ToolRecord
  iterations : Option Nat
  error : Option String

/-- A run result instrumented with the number of model chat calls that were
made (the number of `await self.chat(...)` evaluations). -/
structure Run where
  result : RunResult
  chatCalls : Nat

/-- Argument normalization in `OllamaProvider.chat_with_tools` (ollama.py
lines 177-182): a string argument is `json.loads`-parsed, falling back to `{}`
on `JSONDecodeError`; a non-string passes through unchanged. -/
def normalizeArgs (env : PyEnv) : J → J
  | J.str s =>
    match env.jloads s with
    | Except.ok v => v
    | Except.error _ => J.obj []
  | v => v

/-- The `ToolRecord` appended for one Ollama tool call (ollama.py
lines 172-193). -/
def ollamaRecord (env : PyEnv) (exec : String → J → J) (tc : WireCall) :
    ToolRecord :=
  let args := normalizeArgs env tc.arguments
  { tool := tc.name, arguments := args, result := exec tc.name args }

/-- `json.dumps(tool_result) if isinstance(tool_result, dict) else
str(tool_result)`. -/
def dumpResult (env : PyEnv) (v : J) : String :=
  match v with
  | J.obj _ => env.jdumps v
  | _ => env.pstr v

/-- The body of `OllamaProvider.chat_with_tools` (ollama.py lines 138-206).
`iter` is Python's `iteration` loop counter, `fuel` the number of loop
passes remaining; the top-level call uses `iter = 0`, `fuel = max_iterations`. -/
def ollamaGo (env : PyEnv) (oracle : Nat → ChatOutcome) (exec : String → J → J)
    (maxIter : Nat) : Nat → Nat → List OMsg → List ToolRecord → Run
  | _, 0, _, recs =>
    ⟨⟨"Max iterations reached", recs, some maxIter, none⟩, 0⟩
  | iter, fuel + 1, msgs, recs =>
    match oracle iter with
    | ChatOutcome.failure err => ⟨⟨"", recs, none, some err⟩, 1⟩
    | ChatOutcome.success content tcs =>
      match tcs with
      | [] => ⟨⟨content, recs, some (iter + 1), none⟩, 1⟩
      | _ :: _ =>
        let msgs' := msgs ++ [OMsg.assistant content tcs]
          ++ tcs.map (fun tc =>
              OMsg.tool (dumpResult env (ollamaRecord env exec tc).result))
        let recs' := recs ++ tcs.map (ollamaRecord env exec)
        let r := ollamaGo env oracle exec maxIter (iter + 1) fuel msgs' recs'
        ⟨r.result, r.chatCalls + 1⟩

/-- `OllamaProvider.chat_with_tools`. -/
def ollamaChatWithTools (env : PyEnv) (userMessage : String)
    (oracle : Nat → ChatOutcome) (exec : String → J → J) (maxIter : Nat) :
    Run :=
  ollamaGo env oracle exec maxIter 0 maxIter [OMsg.user userMessage] []

/-- The tool-call requests listed by the Ollama model response at iteration
`i` (empty when that call failed). -/
def ollamaCallsAt (oracle : Nat → ChatOutcome) (i : Nat) : List WireCall :=
  match oracle i with
  | ChatOutcome.failure _ => []
  | ChatOutcome.success _ tcs => tcs

/-- The records produced by the Ollama turn at iteration `i`, one per
requested call, in request order. -/
def ollamaTurnRecs (env : PyEnv) (oracle : Nat → ChatOutcome)
    (exec : String → J → J) (i : Nat) : List ToolRecord :=
  (ollamaCallsAt oracle i).map (ollamaRecord env exec)

/-! ## OpenAI provider (`openai.py`) -/

/-- A raw OpenAI tool call as delivered on the wire: `tc.id`,
`tc.function.name`, and `tc.function.arguments`, the latter always a
JSON-encoded string. -/
structure OAWireCall where
  id : String
  name : String
  arguments : String

/-- Outcome of the underlying OpenAI API call in `OpenAIProvider.chat`:
either a raised API exception (mapped by the source to the error kinds
`"timeout"`, `"authentication_failed"`, `"rate_limited"`, or `str(e)`), or
`response.choices[0].message` with its optional content and tool calls. -/
inductive OAOutcome where
  | apiError (kind : String)
  | reply (content : Option String) (toolCalls : List OAWireCall)

/-- A tool call after `OpenAIProvider.chat` normalization (openai.py
lines 97-106): arguments parsed from the wire string. -/
structure OACall where
  id : String
  name : String
  arguments : J

/-- `json.loads(tc.function.arguments) if tc.function.arguments else {}`
(openai.py line 104): an empty string is falsy and maps to `{}`; otherwise
`json.loads` runs and may raise. -/
def oaParseArgs (env : PyEnv) (s : String) : Except String J :=
  if s = "" then Except.ok (J.obj []) else env.jloads s

/-- Parse all wire tool calls in order; the first `JSONDecodeError`
propagates (it escapes the tool-call loop in `chat` and is caught by the
enclosing `except Exception`). -/
def oaParseCalls (env : PyEnv) : List OAWireCall → Except String (List OACall)
  | [] => Except.ok []
  | tc :: rest =>
    match oaParseArgs env tc.arguments with
    | Except.error e => Except.error e
    | Except.ok args =>
      match oaParseCalls env rest with
      | Except.error e => Except.error e
      | Except.ok tail => Except.ok (⟨tc.id, tc.name, args⟩ :: tail)

/-- `OpenAIProvider.chat` (openai.py lines 63-125): returns the normalized
`(content, tool_calls)` pair, or the error kind that `chat_with_tools` sees
under the `"error"` key. `message.content or ""` is `Option.getD ""`. -/
def openaiChat (env : PyEnv) (out : OAOutcome) :
    Except String (String × List OACall) :=
  match out with
  | OAOutcome.apiError k => Except.error k
  | OAOutcome.reply content tcs =>
    match oaParseCalls env tcs with
    | Except.error e => Except.error e
    | Except.ok parsed => Except.ok (content.getD "", parsed)

/-- Conversation message as accumulated by `OpenAIProvider.chat_with_tools`;
the assistant message stores `(id, name, json.dumps(arguments))` per tool
call and `response.get("content") or None`. -/
inductive OAMsg where
  | user (content : String)
  | assistant (content : Option String) (toolCalls : List (String × String × String))
  | tool (toolCallId : String) (content : String)

/-- Python `s or None` for a string. -/
def orNone (s : String) : Option String :=
  if s = "" then none else some s

/-- The body of `OpenAIProvider.chat_with_tools` (openai.py lines 127-210). -/
def openaiGo (env : PyEnv) (oracle : Nat → OAOutcome) (exec : String → J → J)
    (maxIter : Nat) : Nat → Nat → List OAMsg → List ToolRecord → Run
  | _, 0, _, recs =>
    ⟨⟨"Max iterations reached", recs, some maxIter, none⟩, 0⟩
  | iter, fuel + 1, msgs, recs =>
    match openaiChat env (oracle iter) with
    | Except.error err => ⟨⟨"", recs, none, some err⟩, 1⟩
    | Except.ok (content, tcs) =>
      match tcs with
      | [] => ⟨⟨content, recs, some (iter + 1), none⟩, 1⟩
      | _ :: _ =>
        let msgs' := msgs
          ++ [OAMsg.assistant (orNone content)
                (tcs.map (fun tc => (tc.id, tc.name, env.jdumps tc.arguments)))]
          ++ tcs.map (fun tc =>
              OAMsg.tool tc.id (dumpResult env (exec tc.name tc.arguments)))
        let recs' := recs ++ tcs.map (fun tc =>
          { tool := tc.name, arguments := tc.arguments,
            result := exec tc.name tc.arguments })
        let r := openaiGo env oracle exec maxIter (iter + 1) fuel msgs' recs'
        ⟨r.result, r.chatCalls + 1⟩

/-- `OpenAIProvider.chat_with_tools`. -/
def openaiChatWithTools (env : PyEnv) (userMessage : String)
    (oracle : Nat → OAOutcome) (exec : String → J → J) (maxIter : Nat) : Run :=
  openaiGo env oracle exec maxIter 0 maxIter [OAMsg.user userMessage] []

/-- The tool-call requests the OpenAI response at iteration `i` carries after
`chat` normalization (empty when the call errored). -/
def openaiCallsAt (env : PyEnv) (oracle : Nat → OAOutcome) (i : Nat) :
    List OACall :=
  match openaiChat env (oracle i) with
  | Except.error _ => []
  | Except.ok (_, tcs) => tcs

/-- Per-turn records of the OpenAI loop, in request order. -/
def openaiTurnRecs (env : PyEnv) (oracle : Nat → OAOutcome)
    (exec : String → J → J) (i : Nat) : List ToolRecord :=
  (openaiCallsAt env oracle i).map (fun tc =>
    { tool := tc.name, arguments := tc.arguments,
      result := exec tc.name tc.arguments })

/-! ## Anthropic provider (`anthropic.py`) -/

/-- A `tool_use` content block as normalized by `AnthropicProvider.chat`:
`block.id`, `block.name`, `block.input` (already structured). -/
structure AnthCall where
  id : String
  name : String
  input : J

/-- Outcome of one `AnthropicProvider.chat` call: the error dict, or the
normalized `{content, tool_calls, stop_reason}`. -/
inductive AnthOutcome where
  | failure (err : String)
  | success (content : String) (toolCalls : List AnthCall)
      (stopReason : Option String)

/-- Assistant content block built by `AnthropicProvider.chat_with_tools`. -/
inductive AnthBlock where
  | text (t : String)
  | toolUse (id : String) (name : String) (input : J)

/-- Conversation message as accumulated by
`AnthropicProvider.chat_with_tools`; tool results go into a user-role
message as `(tool_use_id, content)` blocks. -/
inductive AnthMsg where
  | user (content : String)
  | assistant (blocks : List AnthBlock)
  | toolResults (blocks : List (String × String))

/-- The body of `AnthropicProvider.chat_with_tools` (anthropic.py
lines 157-247). The turn is terminal when there are no tool calls **or**
`stop_reason == "end_turn"`. -/
def anthGo (env : PyEnv) (oracle : Nat → AnthOutcome) (exec : String → J → J)
    (maxIter : Nat) : Nat → Nat → List AnthMsg → List ToolRecord → Run
  | _, 0, _, recs =>
    ⟨⟨"Max iterations reached", recs, some maxIter, none⟩, 0⟩
  | iter, fuel + 1, msgs, recs =>
    match oracle iter with
    | AnthOutcome.failure err => ⟨⟨"", recs, none, some err⟩, 1⟩
    | AnthOutcome.success content tcs stop =>
      if tcs.isEmpty || stop == some "end_turn" then
        ⟨⟨content, recs, some (iter + 1), none⟩, 1⟩
      else
        let blocks :=
          (if content ≠ "" then [AnthBlock.text content] else [])
            ++ tcs.map (fun tc => AnthBlock.toolUse tc.id tc.name tc.input)
        let msgs' := msgs ++ [AnthMsg.assistant blocks]
          ++ [AnthMsg.toolResults (tcs.map (fun tc =>
              (tc.id, dumpResult env (exec tc.name tc.input))))]
        let recs' := recs ++ tcs.map (fun tc =>
          { tool := tc.name, arguments := tc.input,
            result := exec tc.name tc.input })
        let r := anthGo env oracle exec maxIter (iter + 1) fuel msgs' recs'
        ⟨r.result, r.chatCalls + 1⟩

/-- `AnthropicProvider.chat_with_tools`. -/
def anthChatWithTools (env : PyEnv) (userMessage : String)
    (oracle : Nat → AnthOutcome) (exec : String → J → J) (maxIter : Nat) :
    Run :=
  anthGo env oracle exec maxIter 0 maxIter [AnthMsg.user userMessage] []

/-- Per-turn records of the Anthropic loop, in request order (empty when the
call failed or the turn was terminal). -/
def anthTurnRecs (oracle : Nat → AnthOutcome) (exec : String → J → J)
    (i : Nat) : List ToolRecord :=
  match oracle i with
  | AnthOutcome.failure _ => []
  | AnthOutcome.success _ tcs stop =>
    if tcs.isEmpty || stop == some "end_turn" then []
    else tcs.map (fun tc =>
      { tool := tc.name, arguments := tc.input,
        result := exec tc.name tc.input })

/-! ## Python dict/list primitives

`mcp_client.py` and the converters thread duck-typed JSON dicts around; the
following model the handful of Python operations they use. An `Except.error`
models a raised exception carrying `str(e)`. -/

/-- First-match lookup in an association list (Python dict access order). -/
def jLookup (kvs : List (String × J)) (k : String) : Option J :=
  (kvs.find? (fun p => p.1 = k)).map (fun p => p.2)

/-- Python truthiness of a JSON value. -/
def pyTruthy : J → Bool
  | J.null => false
  | J.bool b => b
  | J.num n => n != 0
  | J.str s => s ≠ ""
  | J.arr xs => !xs.isEmpty
  | J.obj kvs => !kvs.isEmpty

/-- Python `k in v` for a string key: key membership for dicts, element
membership for lists, substring test for strings, `TypeError` otherwise. -/
def pyContainsKey : J → String → Except String Bool
  | J.obj kvs, k => Except.ok (kvs.any (fun p => p.1 = k))
  | J.arr xs, k => Except.ok (xs.any (fun x =>
      match x with
      | J.str s => s = k
      | _ => false))
  | J.str s, k => Except.ok ((s.splitOn k).length ≥ 2)
  | _, _ => Except.error "TypeError: argument is not iterable"

/-- Python `v[k]` for a string key: `KeyError` when absent, `TypeError` on a
non-dict. -/
def pySubscript : J → String → Except String J
  | J.obj kvs, k =>
    match jLookup kvs k with
    | some v => Except.ok v
    | none => Except.error ("KeyError: " ++ k)
  | _, k => Except.error ("TypeError: indices must not be " ++ k)

/-- Python `v.get(k, default)`: `AttributeError` on a non-dict. -/
def pyGetD : J → String → J → Except String J
  | J.obj kvs, k, dflt => Except.ok ((jLookup kvs k).getD dflt)
  | _, _, _ => Except.error "AttributeError: no attribute get"

/-- Python `v[0]`: first element of a list, first character of a string. -/
def pySub0 : J → Except String J
  | J.arr (x :: _) => Except.ok x
  | J.arr [] => Except.error "IndexError: list index out of range"
  | J.str s =>
    match s.data with
    | [] => Except.error "IndexError: string index out of range"
    | c :: _ => Except.ok (J.str (String.mk [c]))
  | _ => Except.error "TypeError: not subscriptable"

/-! ## MCP transport client (`mcp_client.py`) -/

/-- Outcome of one HTTP POST attempt inside `MCPClient._make_request`:
a connection-level fault (`httpx.RequestError`, which tenacity retries), a
non-2xx status (`raise_for_status` raises `httpx.HTTPStatusError`, which is
*not* an `httpx.RequestError` and is not retried), or a parsed JSON body. -/
inductive NetOutcome where
  | connError (msg : String)
  | statusError (msg : String)
  | ok (body : J)

/-- Error escaping `_make_request`. -/
inductive ReqErr where
  | conn (msg : String)
  | status (msg : String)

/-- Trace of one `_make_request` call: the outcome, the number of HTTP
attempts performed, and the backoff waits (seconds) slept between attempts. -/
structure ReqTrace where
  outcome : Except ReqErr J
  attempts : Nat
  waits : List Nat

/-- tenacity `wait_exponential(multiplier=1, max=10)`: the sleep after the
`n`-th failed attempt is `max(0, min(1 * 2^(n-1), 10))` seconds. -/
def backoffWait (n : Nat) : Nat := min (2 ^ (n - 1)) 10

/-- `MCPClient._make_request` under
`retry(stop=stop_after_attempt(3), wait=wait_exponential(multiplier=1, max=10),
retry=retry_if_exception_type(httpx.RequestError), reraise=True)`:
`attempt` is the 1-based attempt number, `remaining` the attempts still
allowed; called with `remaining = 3`. Only `connError` is retried; after the
last allowed attempt the connection error is reraised. -/
def makeRequestGo (net : Nat → NetOutcome) : Nat → Nat → ReqTrace
  | _, 0 => ⟨Except.error (ReqErr.conn ""), 0, []⟩
  | attempt, remaining + 1 =>
    match net attempt with
    | NetOutcome.ok body => ⟨Except.ok body, 1, []⟩
    | NetOutcome.statusError m => ⟨Except.error (ReqErr.status m), 1, []⟩
    | NetOutcome.connError m =>
      if remaining = 0 then ⟨Except.error (ReqErr.conn m), 1, []⟩
      else
        let t := makeRequestGo net (attempt + 1) remaining
        ⟨t.outcome, t.attempts + 1, backoffWait attempt :: t.waits⟩

/-- `MCPClient._make_request`: up to 3 total attempts. -/
def makeRequest (net : Nat → NetOutcome) : ReqTrace :=
  makeRequestGo net 1 3

/-- The fixed error dict returned for a text payload that fails to parse as
JSON (mcp_client.py lines 89-97). -/
def invalidJsonResult (raw err : String) : J :=
  J.obj [("error", J.str "Invalid JSON response"), ("raw_text", J.str raw),
         ("parse_error", J.str err)]

/-- The reply-classification part of `MCPClient.call_tool` (mcp_client.py
lines 81-99, with the enclosing `except Exception` of lines 104-106): maps
the parsed JSON body of a successful HTTP response to the returned dict. The
inner `try` catches only `json.JSONDecodeError`; any other exception falls to
the outer handler, which returns `{"error": str(e)}`. -/
def classifyBody (env : PyEnv) (body : J) : J :=
  let r : Except String J :=
    match pyContainsKey body "error" with
    | Except.error e => Except.error e
    | Except.ok true =>
      match pySubscript body "error" with
      | Except.error e => Except.error e
      | Except.ok errObj =>
        match pySubscript errObj "message" with
        | Except.error e => Except.error e
        | Except.ok msg => Except.ok (J.obj [("error", msg)])
    | Except.ok false =>
      match pyGetD body "result" (J.obj []) with
      | Except.error e => Except.error e
      | Except.ok res =>
        match pyGetD res "content" (J.arr []) with
        | Except.error e => Except.error e
        | Except.ok content =>
          if pyTruthy content then
            match pySub0 content with
            | Except.error e => Except.error e
            | Except.ok c0 =>
              match pyGetD c0 "type" J.null with
              | Except.error e => Except.error e
              | Except.ok ty =>
                let isText : Bool := match ty with
                  | J.str s => s == "text"
                  | _ => false
                if isText then
                  match pySubscript c0 "text" with
                  | Except.error e => Except.error e
                  | Except.ok (J.str s) =>
                    match env.jloads s with
                    | Except.ok v => Except.ok v
                    | Except.error e => Except.ok (invalidJsonResult s e)
                  | Except.ok _ =>
                    Except.error "TypeError: the JSON object must be str"
                else
                  Except.ok (J.obj [("content", content)])
          else
            Except.ok (J.obj [("content", content)])
  match r with
  | Except.ok v => v
  | Except.error e => J.obj [("error", J.str e)]

/-- The JSON-RPC request body sent by `call_tool` (mcp_client.py
lines 74-79). -/
def callToolPayload (name : String) (args : J) : J :=
  J.obj [("jsonrpc", J.str "2.0"), ("method", J.str "tools/call"),
         ("params", J.obj [("name", J.str name), ("arguments", args)]),
         ("id", J.num 1)]

/-- Result of one `call_tool` invocation together with the transport trace. -/
structure CallToolRun where
  output : J
  attempts : Nat
  waits : List Nat

/-- `MCPClient.call_tool` (mcp_client.py lines 68-106): `arguments = {}` when
`None`; a reraised `httpx.RequestError` is caught and surfaced as
`{"error": "Connection error: ..."}`; any other exception as
`{"error": str(e)}`; a received body is classified by `classifyBody`. -/
def callTool (env : PyEnv) (net : J → Nat → NetOutcome) (name : String)
    (args? : Option J) : CallToolRun :=
  let arguments := args?.getD (J.obj [])
  let t := makeRequest (net (callToolPayload name arguments))
  match t.outcome with
  | Except.error (ReqErr.conn m) =>
    ⟨J.obj [("error", J.str ("Connection error: " ++ m))], t.attempts, t.waits⟩
  | Except.error (ReqErr.status m) =>
    ⟨J.obj [("error", J.str m)], t.attempts, t.waits⟩
  | Except.ok body => ⟨classifyBody env body, t.attempts, t.waits⟩

/-! ## Tool routing (`main.py`, `ClimateAgent.execute_tool`) -/

/-- The weather-server tool names hardcoded in `execute_tool`. -/
def weatherTools : List String := ["get_current_weather", "get_forecast"]

/-- The Home-Assistant-server tool names hardcoded in `execute_tool`. -/
def haTools : List String :=
  ["get_thermostat_state", "set_thermostat_temperature", "set_hvac_mode",
   "set_preset_mode"]

/-- The two downstream MCP transports. -/
inductive Transport where
  | weather : Transport
  | ha : Transport
deriving DecidableEq

/-- Which transport `execute_tool` routes a tool name to, if any. -/
def routeTool (name : String) : Option Transport :=
  if name ∈ weatherTools then some Transport.weather
  else if name ∈ haTools then some Transport.ha
  else none

/-- `ClimateAgent.execute_tool` (main.py lines 284-294): route to the weather
client, the Home Assistant client, or return the explicit unknown-tool error
dict. -/
def executeTool (weatherCall haCall : String → J → J) (name : String)
    (args : J) : J :=
  if name ∈ weatherTools then weatherCall name args
  else if name ∈ haTools then haCall name args
  else J.obj [("error", J.str ("Unknown tool: " ++ name))]

/-! ## Tool-format conversion (`anthropic.py`, `google.py`) -/

/-- The default parameter schema `{"type": "object", "properties": {}}` used
by the converters when `parameters` is absent. -/
def defaultSchema : J :=
  J.obj [("type", J.str "object"), ("properties", J.obj [])]

/-- `AnthropicProvider.convert_tools_to_provider_format`, one tool
(anthropic.py lines 66-89): rename `parameters` to `input_schema` for tools
in the standard `{"type": "function", ...}` shape; pass anything else through
unchanged. -/
def anthConvertOne (tool : J) : Except String J := do
  let ty ← pyGetD tool "type" J.null
  let isFn : Bool := match ty with
    | J.str s => s == "function"
    | _ => false
  if isFn then
    let func ← pyGetD tool "function" (J.obj [])
    let nm ← pyGetD func "name" (J.str "")
    let ds ← pyGetD func "description" (J.str "")
    let ps ← pyGetD func "parameters" defaultSchema
    pure (J.obj [("name", nm), ("description", ds), ("input_schema", ps)])
  else
    pure tool

/-- `AnthropicProvider.convert_tools_to_provider_format` over a list (the
Python `for tool in tools` loop appending to `anthropic_tools`). -/
def anthropicConvertTools : List J → Except String (List J)
  | [] => Except.ok []
  | t :: rest =>
    match anthConvertOne t with
    | Except.error e => Except.error e
    | Except.ok t' =>
      match anthropicConvertTools rest with
      | Except.error e => Except.error e
      | Except.ok tail => Except.ok (t' :: tail)

/-- Gemini `protos.Type` values produced by `_convert_parameters`. -/
inductive GType where
  | INTEGER : GType
  | NUMBER : GType
  | BOOLEAN : GType
  | STRING : GType
  | OBJECT : GType
deriving DecidableEq, Repr

/-- `prop.get("type", "string").upper()` followed by the `if/elif` chain of
google.py lines 109-117: anything other than integer/number/boolean becomes
`STRING`. -/
def gtypeOf (s : String) : GType :=
  let u := s.toUpper
  if u = "INTEGER" then GType.INTEGER
  else if u = "NUMBER" then GType.NUMBER
  else if u = "BOOLEAN" then GType.BOOLEAN
  else GType.STRING

/-- A per-property `genai.protos.Schema` (type + description). -/
structure GProp where
  type : GType
  description : String

/-- The top-level `genai.protos.Schema` built by `_convert_parameters`:
`OBJECT` type, converted properties, and the raw `required` value
(`params.get("required", [])`). -/
structure GSchema where
  type : GType
  properties : List (String × GProp)
  required : J

/-- A `genai.protos.FunctionDeclaration` as built in `_build_gemini_tools`. -/
structure GFuncDecl where
  name : String
  description : String
  parameters : Option GSchema

/-- One property conversion inside `GoogleProvider._convert_parameters`
(google.py lines 108-122); a non-string `type` or `description` raises
(`.upper()` / proto field type check). -/
def convertProp (prop : J) : Except String GProp := do
  let tyJ ← pyGetD prop "type" (J.str "string")
  let ty ← match tyJ with
    | J.str s => Except.ok (gtypeOf s)
    | _ => Except.error "AttributeError: no attribute upper"
  let dJ ← pyGetD prop "description" (J.str "")
  let d ← match dJ with
    | J.str s => Except.ok s
    | _ => Except.error "TypeError: description must be str"
  pure { type := ty, description := d }

/-- The `for name, prop in params.get("properties", {}).items()` loop of
`_convert_parameters`, building the converted properties in order. -/
def convertProps : List (String × J) → Except String (List (String × GProp))
  | [] => Except.ok []
  | (n, prop) :: rest =>
    match convertProp prop with
    | Except.error e => Except.error e
    | Except.ok gp =>
      match convertProps rest with
      | Except.error e => Except.error e
      | Except.ok tail => Except.ok ((n, gp) :: tail)

/-- `GoogleProvider._convert_parameters` (google.py lines 102-128): returns
`None` when `params` is falsy or has no (non-null) `properties` member;
otherwise builds an `OBJECT` schema with the converted properties and
`required = params.get("required", [])`. -/
def convertParameters (params : J) : Except String (Option GSchema) := do
  if pyTruthy params = false then
    pure none
  else
    let props ← pyGetD params "properties" J.null
    match props with
    | J.null => pure none
    | J.obj kvs =>
      let properties ← convertProps kvs
      let req ← pyGetD params "required" (J.arr [])
      pure (some { type := GType.OBJECT, properties := properties,
                   required := req })
    | _ => Except.error "AttributeError: no attribute items"

/-- `GoogleProvider.convert_tools_to_provider_format`, one tool (google.py
lines 64-85): copy name/description/parameters out of the standard shape;
pass anything else through. -/
def googleConvertOne (tool : J) : Except String J := do
  let ty ← pyGetD tool "type" J.null
  let isFn : Bool := match ty with
    | J.str s => s == "function"
    | _ => false
  if isFn then
    let func ← pyGetD tool "function" (J.obj [])
    let params ← pyGetD func "parameters" defaultSchema
    let nm ← pyGetD func "name" (J.str "")
    let ds ← pyGetD func "description" (J.str "")
    pure (J.obj [("name", nm), ("description", ds), ("parameters", params)])
  else
    pure tool

/-- The `FunctionDeclaration` construction inside
`GoogleProvider._build_gemini_tools` (google.py lines 93-100):
`name=fd["name"]` (a `KeyError` when absent), `description=fd.get(...)`,
`parameters=self._convert_parameters(fd.get("parameters", {}))`. -/
def buildDecl (fd : J) : Except String GFuncDecl := do
  let nmJ ← pySubscript fd "name"
  let nm ← match nmJ with
    | J.str s => Except.ok s
    | _ => Except.error "TypeError: name must be str"
  let dJ ← pyGetD fd "description" (J.str "")
  let d ← match dJ with
    | J.str s => Except.ok s
    | _ => Except.error "TypeError: description must be str"
  let pJ ← pyGetD fd "parameters" (J.obj [])
  let ps ← convertParameters pJ
  pure { name := nm, description := d, parameters := ps }

/-- `GoogleProvider.convert_tools_to_provider_format` over a list (the
Python `for tool in tools` loop). -/
def googleConvertTools : List J → Except String (List J)
  | [] => Except.ok []
  | t :: rest =>
    match googleConvertOne t with
    | Except.error e => Except.error e
    | Except.ok t' =>
      match googleConvertTools rest with
      | Except.error e => Except.error e
      | Except.ok tail => Except.ok (t' :: tail)

/-- The `FunctionDeclaration` list comprehension of `_build_gemini_tools`. -/
def buildDecls : List J → Except String (List GFuncDecl)
  | [] => Except.ok []
  | fd :: rest =>
    match buildDecl fd with
    | Except.error e => Except.error e
    | Except.ok d =>
      match buildDecls rest with
      | Except.error e => Except.error e
      | Except.ok tail => Except.ok (d :: tail)

/-- `GoogleProvider._build_gemini_tools` (google.py lines 87-100): `None` on
an empty tool list, otherwise `convert_tools_to_provider_format` followed by
`FunctionDeclaration` construction per entry. -/
def buildGeminiTools (tools : List J) : Except String (Option (List GFuncDecl)) :=
  if tools.isEmpty then
    pure none
  else
    match googleConvertTools tools with
    | Except.error e => Except.error e
    | Except.ok fds =>
      match buildDecls fds with
      | Except.error e => Except.error e
      | Except.ok decls => Except.ok (some decls)

/-- Lowercase JSON-schema name of a Gemini type. -/
def gtypeName : GType → String
  | GType.INTEGER => "integer"
  | GType.NUMBER => "number"
  | GType.BOOLEAN => "boolean"
  | GType.STRING => "string"
  | GType.OBJECT => "object"

/-- Modelled from the spec: the backend-specific inverse mapping for
Anthropic (§8 round-trip; the inverse itself is not code of the repository).
It rewraps an Anthropic-native tool into the standard shape, renaming
`input_schema` back to `parameters`. -/
def specAnthInverse (t : J) : J :=
  match t with
  | J.obj kvs =>
    J.obj [("type", J.str "function"),
      ("function", J.obj
        [("name", (jLookup kvs "name").getD J.null),
         ("description", (jLookup kvs "description").getD J.null),
         ("parameters", (jLookup kvs "input_schema").getD J.null)])]
  | v => v

/-- Modelled from the spec: the backend-specific inverse mapping for Google
(§8 round-trip; the inverse itself is not code of the repository). It reads a
`FunctionDeclaration` back into the standard shape; a typed schema maps back
to a JSON-schema object carrying its properties and its `required` value, and
an absent schema maps back to an empty schema (hence an empty `required`
list). -/
def specGoogleInverse (d : GFuncDecl) : J :=
  J.obj [("type", J.str "function"),
    ("function", J.obj
      [("name", J.str d.name),
       ("description", J.str d.description),
       ("parameters",
        match d.parameters with
        | none => J.obj []
        | some s =>
          J.obj [("type", J.str (gtypeName s.type)),
            ("properties", J.obj (s.properties.map (fun p =>
              (p.1, J.obj [("type", J.str (gtypeName p.2.type)),
                           ("description", J.str p.2.description)])))),
            ("required", s.required)])])]

/-- The `required` list of a standard-shape tool's parameter schema (absent
⇒ empty list), used to state the round-trip property. -/
def stdRequired (tool : J) : J :=
  match tool with
  | J.obj kvs =>
    match jLookup kvs "function" with
    | some (J.obj fk) =>
      match jLookup fk "parameters" with
      | some (J.obj pk) => (jLookup pk "required").getD (J.arr [])
      | _ => J.arr []
    | _ => J.arr []
  | _ => J.arr []

/-- The `name` of a standard-shape tool. -/
def stdName (tool : J) : Option J :=
  match tool with
  | J.obj kvs =>
    match jLookup kvs "function" with
    | some (J.obj fk) => jLookup fk "name"
    | _ => none
  | _ => none

/-- A tool definition in the standard
`{"type": "function", "function": {name, description, parameters}}` shape. -/
structure StdTool where
  name : String
  description : String
  parameters : J

/-- Render a standard tool as its JSON dict. -/
def StdTool.toJson (t : StdTool) : J :=
  J.obj [("type", J.str "function"),
    ("function", J.obj [("name", J.str t.name),
      ("description", J.str t.description),
      ("parameters", t.parameters)])]

/-- A property of a standard JSON-schema `properties` map: optional string
`type` and `description` members. -/
structure StdProp where
  name : String
  propType : Option String
  propDescription : Option String

/-- Render a property schema. -/
def StdProp.toJson (p : StdProp) : J :=
  J.obj ((match p.propType with
          | some t => [("type", J.str t)]
          | none => [])
    ++ (match p.propDescription with
        | some d => [("description", J.str d)]
        | none => []))

/-- A standard parameter schema that carries a `properties` member (possibly
empty) and a `required` list. -/
structure StdParams where
  props : List StdProp
  required : List String

/-- Render a parameter schema as its JSON dict. -/
def StdParams.toJson (p : StdParams) : J :=
  J.obj [("type", J.str "object"),
    ("properties", J.obj (p.props.map (fun q => (q.name, q.toJson)))),
    ("required", J.arr (p.required.map J.str))]

/-- The Anthropic-native form `convert_tools_to_provider_format` produces for
a standard tool. -/
def anthNative (t : StdTool) : J :=
  J.obj [("name", J.str t.name), ("description", J.str t.description),
         ("input_schema", t.parameters)]

/-- The converted property map `_convert_parameters` produces for a standard
`properties` member. -/
def gpropsOf (qs : List StdProp) : List (String × GProp) :=
  qs.map (fun q =>
    (q.name, { type := gtypeOf ((q.propType).getD "string"),
               description := (q.propDescription).getD "" }))

/-- The `FunctionDeclaration` the Google pipeline produces for a standard
tool whose schema has a `properties` member. -/
def gdeclOf (g : String × String × StdParams) : GFuncDecl :=
  { name := g.1, description := g.2.1,
    parameters := some (GSchema.mk GType.OBJECT (gpropsOf g.2.2.props)
      (J.arr (g.2.2.required.map J.str))) }

/-- The intermediate dict `convert_tools_to_provider_format` produces for a
standard tool. -/
def gfdOf (g : String × String × StdParams) : J :=
  J.obj [("name", J.str g.1), ("description", J.str g.2.1),
         ("parameters", g.2.2.toJson)]

/-! ## JSON-RPC reply envelopes

The repository's MCP servers (`weather_mcp/server.py`, `ha_mcp/server.py`)
answer `POST /mcp` with either
`{"jsonrpc": "2.0", "error": {"code": c, "message": m}, "id": i}` or
`{"jsonrpc": "2.0", "result": {"content": items}, "id": i}`, where each
content item serializes as `{"type": "text", "text": s}`. -/

/-- A well-formed JSON-RPC reply envelope. -/
inductive Envelope where
  | err (id : Int) (code : Int) (message : String)
  | res (id : Int) (content : List J)

/-- The JSON body of an envelope, in the servers' key order. -/
def Envelope.toJson : Envelope → J
  | Envelope.err i c m =>
    J.obj [("jsonrpc", J.str "2.0"),
           ("error", J.obj [("code", J.num c), ("message", J.str m)]),
           ("id", J.num i)]
  | Envelope.res i items =>
    J.obj [("jsonrpc", J.str "2.0"),
           ("result", J.obj [("content", J.arr items)]),
           ("id", J.num i)]

/-- A serialized `TextContent` item: `{"type": "text", "text": s}`. -/
def textItem (s : String) : J :=
  J.obj [("type", J.str "text"), ("text", J.str s)]

/-- Reply class (b) of the classification: an RPC-level error envelope. -/
def replyIsRpcError : Envelope → Prop
  | Envelope.err _ _ _ => True
  | Envelope.res _ _ => False

/-- Reply class (c): a result envelope whose leading text payload fails to
parse as JSON. -/
def replyIsBadText (env : PyEnv) : Envelope → Prop
  | Envelope.err _ _ _ => False
  | Envelope.res _ items =>
    ∃ s rest e, items = textItem s :: rest ∧ env.jloads s = Except.error e

/-- Reply class (a): everything else — a structured JSON result. -/
def replyIsStructured (env : PyEnv) (r : Envelope) : Prop :=
  ¬ replyIsRpcError r ∧ ¬ replyIsBadText env r

/-! ## Concrete fixtures for witnesses and counterexamples -/

/-- Fixture `json.loads` that fails on every string it is given (modelling
runs in which every string payload handed to `json.loads` is invalid JSON,
such as `"not json"`). -/
def jloadsFail : String → Except String J :=
  fun _ => Except.error "Expecting value: line 1 column 1 (char 0)"

/-- Environment whose string payloads all fail to parse. -/
def envFail : PyEnv :=
  { jloads := jloadsFail, jdumps := fun _ => "", pstr := fun _ => "" }

/-- Environment whose string payloads all parse to `{}`. -/
def envOk : PyEnv :=
  { jloads := fun _ => Except.ok (J.obj []), jdumps := fun _ => "",
    pstr := fun _ => "" }

/-- A standard-shape tool whose parameter schema has a `required` list but no
`properties` member (legal JSON schema; `properties` is optional). -/
def toolNoProps : J :=
  J.obj [("type", J.str "function"),
    ("function", J.obj
      [("name", J.str "set_thermostat_temperature"),
       ("description", J.str "Set the thermostat target temperature"),
       ("parameters", J.obj [("type", J.str "object"),
          ("required", J.arr [J.str "temperature"])])])]

/-! ## Helper lemmas -/

lemma join_range_succ {α : Type} (f : Nat → List α) (i T : Nat) :
    ((List.range (T + 1)).map (fun j => f (i + j))).flatten
      = f i ++ ((List.range T).map (fun j => f (i + 1 + j))).flatten := by
  have h : (fun j => f (i + Nat.succ j)) = fun j => f (i + 1 + j) := by
    funext j
    congr 1
    omega
  rw [List.range_succ_eq_map, List.map_cons, List.map_map]
  simp only [Function.comp_def, Nat.add_zero, List.flatten_cons]
  rw [h]

lemma ollamaGo_zero (env : PyEnv) (oracle : Nat → ChatOutcome)
    (exec : String → J → J) (maxIter iter : Nat) (msgs : List OMsg)
    (recs : List ToolRecord) :
    ollamaGo env oracle exec maxIter iter 0 msgs recs
      = ⟨⟨"Max iterations reached", recs, some maxIter, none⟩, 0⟩ := rfl

lemma ollamaGo_fail (env : PyEnv) (oracle : Nat → ChatOutcome)
    (exec : String → J → J) (maxIter iter n : Nat) (msgs : List OMsg)
    (recs : List ToolRecord) (e : String)
    (h : oracle iter = ChatOutcome.failure e) :
    ollamaGo env oracle exec maxIter iter (n + 1) msgs recs
      = ⟨⟨"", recs, none, some e⟩, 1⟩ := by
  simp [ollamaGo, h]

lemma ollamaGo_done (env : PyEnv) (oracle : Nat → ChatOutcome)
    (exec : String → J → J) (maxIter iter n : Nat) (msgs : List OMsg)
    (recs : List ToolRecord) (c : String)
    (h : oracle iter = ChatOutcome.success c []) :
    ollamaGo env oracle exec maxIter iter (n + 1) msgs recs
      = ⟨⟨c, recs, some (iter + 1), none⟩, 1⟩ := by
  simp [ollamaGo, h]

lemma ollamaGo_tools (env : PyEnv) (oracle : Nat → ChatOutcome)
    (exec : String → J → J) (maxIter iter n : Nat) (msgs : List OMsg)
    (recs : List ToolRecord) (c : String) (a : WireCall) (l : List WireCall)
    (h : oracle iter = ChatOutcome.success c (a :: l)) :
    ollamaGo env oracle exec maxIter iter (n + 1) msgs recs
      = (let r := ollamaGo env oracle exec maxIter (iter + 1) n
            (msgs ++ [OMsg.assistant c (a :: l)]
              ++ (a :: l).map (fun tc =>
                  OMsg.tool (dumpResult env (ollamaRecord env exec tc).result)))
            (recs ++ (a :: l).map (ollamaRecord env exec))
         ⟨r.result, r.chatCalls + 1⟩) := by
  simp [ollamaGo, h]

lemma ollamaGo_max (env : PyEnv) (oracle : Nat → ChatOutcome)
    (exec : String → J → J) (maxIter : Nat) :
    ∀ (fuel iter : Nat) (msgs : List OMsg) (recs : List ToolRecord),
      (∀ k, iter ≤ k → k < iter + fuel →
        ∃ c tcs, oracle k = ChatOutcome.success c tcs ∧ tcs ≠ []) →
      (ollamaGo env oracle exec maxIter iter fuel msgs recs).chatCalls = fuel
      ∧ (ollamaGo env oracle exec maxIter iter fuel msgs recs).result.finalResponse
          = "Max iterations reached"
      ∧ (ollamaGo env oracle exec maxIter iter fuel msgs recs).result.iterations
          = some maxIter
      ∧ (ollamaGo env oracle exec maxIter iter fuel msgs recs).result.error
          = none := by
  intro fuel
  induction fuel with
  | zero =>
    intro iter msgs recs _
    simp [ollamaGo_zero]
  | succ n ih =>
    intro iter msgs recs h
    obtain ⟨c, tcs, hor, hne⟩ := h iter (Nat.le_refl _) (by omega)
    match tcs, hne with
    | a :: l, _ =>
      rw [ollamaGo_tools env oracle exec maxIter iter n msgs recs c a l hor]
      have h' := ih (iter + 1)
        (msgs ++ [OMsg.assistant c (a :: l)]
          ++ (a :: l).map (fun tc =>
              OMsg.tool (dumpResult env (ollamaRecord env exec tc).result)))
        (recs ++ (a :: l).map (ollamaRecord env exec))
        (fun k hk1 hk2 => h k (by omega) (by omega))
      exact ⟨by simpa using h'.1, by simpa using h'.2.1,
             by simpa using h'.2.2.1, by simpa using h'.2.2.2⟩

lemma openaiGo_zero (env : PyEnv) (oracle : Nat → OAOutcome)
    (exec : String → J → J) (maxIter iter : Nat) (msgs : List OAMsg)
    (recs : List ToolRecord) :
    openaiGo env oracle exec maxIter iter 0 msgs recs
      = ⟨⟨"Max iterations reached", recs, some maxIter, none⟩, 0⟩ := rfl

lemma openaiGo_err (env : PyEnv) (oracle : Nat → OAOutcome)
    (exec : String → J → J) (maxIter iter n : Nat) (msgs : List OAMsg)
    (recs : List ToolRecord) (e : String)
    (h : openaiChat env (oracle iter) = Except.error e) :
    openaiGo env oracle exec maxIter iter (n + 1) msgs recs
      = ⟨⟨"", recs, none, some e⟩, 1⟩ := by
  simp [openaiGo, h]

lemma openaiGo_done (env : PyEnv) (oracle : Nat → OAOutcome)
    (exec : String → J → J) (maxIter iter n : Nat) (msgs : List OAMsg)
    (recs : List ToolRecord) (c : String)
    (h : openaiChat env (oracle iter) = Except.ok (c, [])) :
    openaiGo env oracle exec maxIter iter (n + 1) msgs recs
      = ⟨⟨c, recs, some (iter + 1), none⟩, 1⟩ := by
  simp [openaiGo, h]

lemma openaiGo_tools (env : PyEnv) (oracle : Nat → OAOutcome)
    (exec : String → J → J) (maxIter iter n : Nat) (msgs : List OAMsg)
    (recs : List ToolRecord) (c : String) (a : OACall) (l : List OACall)
    (h : openaiChat env (oracle iter) = Except.ok (c, a :: l)) :
    openaiGo env oracle exec maxIter iter (n + 1) msgs recs
      = (let r := openaiGo env oracle exec maxIter (iter + 1) n
            (msgs
              ++ [OAMsg.assistant (orNone c)
                    ((a :: l).map (fun tc => (tc.id, tc.name, env.jdumps tc.arguments)))]
              ++ (a :: l).map (fun tc =>
                  OAMsg.tool tc.id (dumpResult env (exec tc.name tc.arguments))))
            (recs ++ (a :: l).map (fun tc =>
              { tool := tc.name, arguments := tc.arguments,
                result := exec tc.name tc.arguments }))
         ⟨r.result, r.chatCalls + 1⟩) := by
  simp [openaiGo, h]

lemma openaiGo_max (env : PyEnv) (oracle : Nat → OAOutcome)
    (exec : String → J → J) (maxIter : Nat) :
    ∀ (fuel iter : Nat) (msgs : List OAMsg) (recs : List ToolRecord),
      (∀ k, iter ≤ k → k < iter + fuel →
        ∃ c tcs, openaiChat env (oracle k) = Except.ok (c, tcs) ∧ tcs ≠ []) →
      (openaiGo env oracle exec maxIter iter fuel msgs recs).chatCalls = fuel
      ∧ (openaiGo env oracle exec maxIter iter fuel msgs recs).result.finalResponse
          = "Max iterations reached"
      ∧ (openaiGo env oracle exec maxIter iter fuel msgs recs).result.iterations
          = some maxIter
      ∧ (openaiGo env oracle exec maxIter iter fuel msgs recs).result.error
          = none := by
  intro fuel
  induction fuel with
  | zero =>
    intro iter msgs recs _
    simp [openaiGo_zero]
  | succ n ih =>
    intro iter msgs recs h
    obtain ⟨c, tcs, hor, hne⟩ := h iter (Nat.le_refl _) (by omega)
    match tcs, hne with
    | a :: l, _ =>
      rw [openaiGo_tools env oracle exec maxIter iter n msgs recs c a l hor]
      have h' := ih (iter + 1)
        (msgs
          ++ [OAMsg.assistant (orNone c)
                ((a :: l).map (fun tc => (tc.id, tc.name, env.jdumps tc.arguments)))]
          ++ (a :: l).map (fun tc =>
              OAMsg.tool tc.id (dumpResult env (exec tc.name tc.arguments))))
        (recs ++ (a :: l).map (fun tc =>
          { tool := tc.name, arguments := tc.arguments,
            result := exec tc.name tc.arguments }))
        (fun k hk1 hk2 => h k (by omega) (by omega))
      exact ⟨by simpa using h'.1, by simpa using h'.2.1,
             by simpa using h'.2.2.1, by simpa using h'.2.2.2⟩

lemma anthGo_zero (env : PyEnv) (oracle : Nat → AnthOutcome)
    (exec : String → J → J) (maxIter iter : Nat) (msgs : List AnthMsg)
    (recs : List ToolRecord) :
    anthGo env oracle exec maxIter iter 0 msgs recs
      = ⟨⟨"Max iterations reached", recs, some maxIter, none⟩, 0⟩ := rfl

lemma anthGo_fail (env : PyEnv) (oracle : Nat → AnthOutcome)
    (exec : String → J → J) (maxIter iter n : Nat) (msgs : List AnthMsg)
    (recs : List ToolRecord) (e : String)
    (h : oracle iter = AnthOutcome.failure e) :
    anthGo env oracle exec maxIter iter (n + 1) msgs recs
      = ⟨⟨"", recs, none, some e⟩, 1⟩ := by
  simp [anthGo, h]

lemma anthGo_done (env : PyEnv) (oracle : Nat → AnthOutcome)
    (exec : String → J → J) (maxIter iter n : Nat) (msgs : List AnthMsg)
    (recs : List ToolRecord) (c : String) (tcs : List AnthCall)
    (stop : Option String)
    (h : oracle iter = AnthOutcome.success c tcs stop)
    (hcond : (tcs.isEmpty || stop == some "end_turn") = true) :
    anthGo env oracle exec maxIter iter (n + 1) msgs recs
      = ⟨⟨c, recs, some (iter + 1), none⟩, 1⟩ := by
  simp [anthGo, h, hcond]

lemma anthGo_tools (env : PyEnv) (oracle : Nat → AnthOutcome)
    (exec : String → J → J) (maxIter iter n : Nat) (msgs : List AnthMsg)
    (recs : List ToolRecord) (c : String) (tcs : List AnthCall)
    (stop : Option String)
    (h : oracle iter = AnthOutcome.success c tcs stop)
    (hcond : (tcs.isEmpty || stop == some "end_turn") = false) :
    anthGo env oracle exec maxIter iter (n + 1) msgs recs
      = (let r := anthGo env oracle exec maxIter (iter + 1) n
            (msgs
              ++ [AnthMsg.assistant
                    ((if c ≠ "" then [AnthBlock.text c] else [])
                      ++ tcs.map (fun tc => AnthBlock.toolUse tc.id tc.name tc.input))]
              ++ [AnthMsg.toolResults (tcs.map (fun tc =>
                  (tc.id, dumpResult env (exec tc.name tc.input))))])
            (recs ++ tcs.map (fun tc =>
              { tool := tc.name, arguments := tc.input,
                result := exec tc.name tc.input }))
         ⟨r.result, r.chatCalls + 1⟩) := by
  simp only [anthGo, h, hcond, Bool.false_eq_true, if_false]

lemma ollamaTurnRecs_eq (env : PyEnv) (oracle : Nat → ChatOutcome)
    (exec : String → J → J) (i : Nat) (c : String) (tcs : List WireCall)
    (h : oracle i = ChatOutcome.success c tcs) :
    ollamaTurnRecs env oracle exec i = tcs.map (ollamaRecord env exec) := by
  simp [ollamaTurnRecs, ollamaCallsAt, h]

lemma ollamaGo_trace (env : PyEnv) (oracle : Nat → ChatOutcome)
    (exec : String → J → J) (maxIter : Nat) :
    ∀ (fuel iter : Nat) (msgs : List OMsg) (recs : List ToolRecord),
      ∃ T, T ≤ fuel ∧
        (ollamaGo env oracle exec maxIter iter fuel msgs recs).result.toolCallsMade
          = recs ++ ((List.range T).map
              (fun j => ollamaTurnRecs env oracle exec (iter + j))).flatten := by
  intro fuel
  induction fuel with
  | zero =>
    intro iter msgs recs
    exact ⟨0, Nat.le_refl _, by simp [ollamaGo_zero]⟩
  | succ n ih =>
    intro iter msgs recs
    cases horacle : oracle iter with
    | failure e =>
      refine ⟨0, by omega, ?_⟩
      rw [ollamaGo_fail env oracle exec maxIter iter n msgs recs e horacle]
      simp
    | success c tcs =>
      cases tcs with
      | nil =>
        refine ⟨0, by omega, ?_⟩
        rw [ollamaGo_done env oracle exec maxIter iter n msgs recs c horacle]
        simp
      | cons a l =>
        obtain ⟨T, hT, heq⟩ := ih (iter + 1)
          (msgs ++ [OMsg.assistant c (a :: l)]
            ++ (a :: l).map (fun tc =>
                OMsg.tool (dumpResult env (ollamaRecord env exec tc).result)))
          (recs ++ (a :: l).map (ollamaRecord env exec))
        refine ⟨T + 1, by omega, ?_⟩
        rw [ollamaGo_tools env oracle exec maxIter iter n msgs recs c a l horacle]
        simp only []
        rw [heq, join_range_succ (ollamaTurnRecs env oracle exec) iter T]
        rw [ollamaTurnRecs_eq env oracle exec iter c (a :: l) horacle]
        simp [List.append_assoc]

lemma openaiTurnRecs_eq (env : PyEnv) (oracle : Nat → OAOutcome)
    (exec : String → J → J) (i : Nat) (c : String) (tcs : List OACall)
    (h : openaiChat env (oracle i) = Except.ok (c, tcs)) :
    openaiTurnRecs env oracle exec i = tcs.map (fun tc =>
      { tool := tc.name, arguments := tc.arguments,
        result := exec tc.name tc.arguments }) := by
  simp [openaiTurnRecs, openaiCallsAt, h]

lemma openaiGo_trace (env : PyEnv) (oracle : Nat → OAOutcome)
    (exec : String → J → J) (maxIter : Nat) :
    ∀ (fuel iter : Nat) (msgs : List OAMsg) (recs : List ToolRecord),
      ∃ T, T ≤ fuel ∧
        (openaiGo env oracle exec maxIter iter fuel msgs recs).result.toolCallsMade
          = recs ++ ((List.range T).map
              (fun j => openaiTurnRecs env oracle exec (iter + j))).flatten := by
  intro fuel
  induction fuel with
  | zero =>
    intro iter msgs recs
    exact ⟨0, Nat.le_refl _, by simp [openaiGo_zero]⟩
  | succ n ih =>
    intro iter msgs recs
    cases hchat : openaiChat env (oracle iter) with
    | error e =>
      refine ⟨0, by omega, ?_⟩
      rw [openaiGo_err env oracle exec maxIter iter n msgs recs e hchat]
      simp
    | ok pair =>
      obtain ⟨c, tcs⟩ := pair
      cases tcs with
      | nil =>
        refine ⟨0, by omega, ?_⟩
        rw [openaiGo_done env oracle exec maxIter iter n msgs recs c hchat]
        simp
      | cons a l =>
        obtain ⟨T, hT, heq⟩ := ih (iter + 1)
          (msgs
            ++ [OAMsg.assistant (orNone c)
                  ((a :: l).map (fun tc => (tc.id, tc.name, env.jdumps tc.arguments)))]
            ++ (a :: l).map (fun tc =>
                OAMsg.tool tc.id (dumpResult env (exec tc.name tc.arguments))))
          (recs ++ (a :: l).map (fun tc =>
            { tool := tc.name, arguments := tc.arguments,
              result := exec tc.name tc.arguments }))
        refine ⟨T + 1, by omega, ?_⟩
        rw [openaiGo_tools env oracle exec maxIter iter n msgs recs c a l hchat]
        simp only []
        rw [heq, join_range_succ (openaiTurnRecs env oracle exec) iter T]
        rw [openaiTurnRecs_eq env oracle exec iter c (a :: l) hchat]
        simp [List.append_assoc]

lemma ollamaGo_error (env : PyEnv) (oracle : Nat → ChatOutcome)
    (exec : String → J → J) (maxIter : Nat) (e : String) :
    ∀ (k fuel iter : Nat) (msgs : List OMsg) (recs : List ToolRecord),
      k < fuel →
      (∀ j, j < k →
        ∃ c tcs, oracle (iter + j) = ChatOutcome.success c tcs ∧ tcs ≠ []) →
      oracle (iter + k) = ChatOutcome.failure e →
      ollamaGo env oracle exec maxIter iter fuel msgs recs
        = ⟨⟨"", recs ++ ((List.range k).map
              (fun j => ollamaTurnRecs env oracle exec (iter + j))).flatten,
            none, some e⟩, k + 1⟩ := by
  intro k
  induction k with
  | zero =>
    intro fuel iter msgs recs hk _ hfail
    match fuel, hk with
    | n + 1, _ =>
      rw [Nat.add_zero] at hfail
      rw [ollamaGo_fail env oracle exec maxIter iter n msgs recs e hfail]
      simp
  | succ m ih =>
    intro fuel iter msgs recs hk hsucc hfail
    match fuel, hk with
    | n + 1, _ =>
      obtain ⟨c, tcs, hor, hne⟩ := hsucc 0 (by omega)
      rw [Nat.add_zero] at hor
      match tcs, hne with
      | a :: l, _ =>
        rw [ollamaGo_tools env oracle exec maxIter iter n msgs recs c a l hor]
        simp only []
        rw [ih n (iter + 1)
          (msgs ++ [OMsg.assistant c (a :: l)]
            ++ (a :: l).map (fun tc =>
                OMsg.tool (dumpResult env (ollamaRecord env exec tc).result)))
          (recs ++ (a :: l).map (ollamaRecord env exec))
          (by omega)
          (fun j hj => by
            obtain ⟨c', tcs', h1, h2⟩ := hsucc (j + 1) (by omega)
            exact ⟨c', tcs', by rw [show iter + 1 + j = iter + (j + 1) by omega]; exact h1, h2⟩)
          (by rw [show iter + 1 + m = iter + (m + 1) by omega]; exact hfail)]
        rw [join_range_succ (ollamaTurnRecs env oracle exec) iter m]
        rw [ollamaTurnRecs_eq env oracle exec iter c (a :: l) hor]
        simp [List.append_assoc]

lemma anthTurnRecs_eq (oracle : Nat → AnthOutcome) (exec : String → J → J)
    (i : Nat) (c : String) (tcs : List AnthCall) (stop : Option String)
    (h : oracle i = AnthOutcome.success c tcs stop)
    (hcond : (tcs.isEmpty || stop == some "end_turn") = false) :
    anthTurnRecs oracle exec i = tcs.map (fun tc =>
      { tool := tc.name, arguments := tc.input,
        result := exec tc.name tc.input }) := by
  simp [anthTurnRecs, h, hcond]

lemma anthGo_error (env : PyEnv) (oracle : Nat → AnthOutcome)
    (exec : String → J → J) (maxIter : Nat) (e : String) :
    ∀ (k fuel iter : Nat) (msgs : List AnthMsg) (recs : List ToolRecord),
      k < fuel →
      (∀ j, j < k →
        ∃ c tcs stop, oracle (iter + j) = AnthOutcome.success c tcs stop ∧
          (tcs.isEmpty || stop == some "end_turn") = false) →
      oracle (iter + k) = AnthOutcome.failure e →
      anthGo env oracle exec maxIter iter fuel msgs recs
        = ⟨⟨"", recs ++ ((List.range k).map
              (fun j => anthTurnRecs oracle exec (iter + j))).flatten,
            none, some e⟩, k + 1⟩ := by
  intro k
  induction k with
  | zero =>
    intro fuel iter msgs recs hk _ hfail
    match fuel, hk with
    | n + 1, _ =>
      rw [Nat.add_zero] at hfail
      rw [anthGo_fail env oracle exec maxIter iter n msgs recs e hfail]
      simp
  | succ m ih =>
    intro fuel iter msgs recs hk hsucc hfail
    match fuel, hk with
    | n + 1, _ =>
      obtain ⟨c, tcs, stop, hor, hcond⟩ := hsucc 0 (by omega)
      rw [Nat.add_zero] at hor
      rw [anthGo_tools env oracle exec maxIter iter n msgs recs c tcs stop hor hcond]
      simp only []
      rw [ih n (iter + 1)
        (msgs
          ++ [AnthMsg.assistant
                ((if c ≠ "" then [AnthBlock.text c] else [])
                  ++ tcs.map (fun tc => AnthBlock.toolUse tc.id tc.name tc.input))]
          ++ [AnthMsg.toolResults (tcs.map (fun tc =>
              (tc.id, dumpResult env (exec tc.name tc.input))))])
        (recs ++ tcs.map (fun tc =>
          ({ tool := tc.name, arguments := tc.input,
             result := exec tc.name tc.input } : ToolRecord)))
        (by omega)
        (fun j hj => by
          obtain ⟨c', tcs', stop', h1, h2⟩ := hsucc (j + 1) (by omega)
          exact ⟨c', tcs', stop',
            by rw [show iter + 1 + j = iter + (j + 1) by omega]; exact h1, h2⟩)
        (by rw [show iter + 1 + m = iter + (m + 1) by omega]; exact hfail)]
      rw [join_range_succ (anthTurnRecs oracle exec) iter m]
      rw [anthTurnRecs_eq oracle exec iter c tcs stop hor hcond]
      simp [List.append_assoc]

/-! ## Claim theorems -/

/-- **C1.** For every `max_iterations = N ≥ 1`, if every model chat call
succeeds and every response carries a non-empty tool-call list, then
`chat_with_tools` (Ollama and OpenAI implementations) makes exactly `N` model
calls — never an `(N+1)`-th — and returns `final_response =
"Max iterations reached"` with `iterations = N`. -/
theorem max_iterations_exact
    (envO : PyEnv) (oracleO : Nat → ChatOutcome) (execO : String → J → J)
    (envA : PyEnv) (oracleA : Nat → OAOutcome) (execA : String → J → J)
    (u₁ u₂ : String) (N : Nat) (_hN : 1 ≤ N)
    (hO : ∀ k, k < N →
      ∃ c tcs, oracleO k = ChatOutcome.success c tcs ∧ tcs ≠ [])
    (hA : ∀ k, k < N →
      ∃ c tcs, openaiChat envA (oracleA k) = Except.ok (c, tcs) ∧ tcs ≠ []) :
    ((ollamaChatWithTools envO u₁ oracleO execO N).chatCalls = N
      ∧ (ollamaChatWithTools envO u₁ oracleO execO N).result.finalResponse
          = "Max iterations reached"
      ∧ (ollamaChatWithTools envO u₁ oracleO execO N).result.iterations = some N
      ∧ (ollamaChatWithTools envO u₁ oracleO execO N).result.error = none)
    ∧ ((openaiChatWithTools envA u₂ oracleA execA N).chatCalls = N
      ∧ (openaiChatWithTools envA u₂ oracleA execA N).result.finalResponse
          = "Max iterations reached"
      ∧ (openaiChatWithTools envA u₂ oracleA execA N).result.iterations = some N
      ∧ (openaiChatWithTools envA u₂ oracleA execA N).result.error = none) := by
  constructor
  · simpa only [ollamaChatWithTools] using
      ollamaGo_max envO oracleO execO N N 0 [OMsg.user u₁] []
        (fun k _ hk2 => hO k (by omega))
  · simpa only [openaiChatWithTools] using
      openaiGo_max envA oracleA execA N N 0 [OAMsg.user u₂] []
        (fun k _ hk2 => hA k (by omega))

/-- Witness for C1: with a model that always requests `get_forecast`, a cap
of 3 gives exactly 3 model calls and the sentinel answer, on both loops. -/
theorem max_iterations_exact_witness :
    (ollamaChatWithTools envOk "task"
        (fun _ => ChatOutcome.success "" [⟨"get_forecast", J.obj []⟩])
        (fun _ _ => J.obj []) 3).chatCalls = 3
    ∧ (ollamaChatWithTools envOk "task"
        (fun _ => ChatOutcome.success "" [⟨"get_forecast", J.obj []⟩])
        (fun _ _ => J.obj []) 3).result.finalResponse = "Max iterations reached"
    ∧ (openaiChatWithTools envOk "task"
        (fun _ => OAOutcome.reply (some "") [⟨"call_1", "get_forecast", ""⟩])
        (fun _ _ => J.obj []) 3).chatCalls = 3
    ∧ (openaiChatWithTools envOk "task"
        (fun _ => OAOutcome.reply (some "") [⟨"call_1", "get_forecast", ""⟩])
        (fun _ _ => J.obj []) 3).result.iterations = some 3 := by
  have h := max_iterations_exact envOk
    (fun _ => ChatOutcome.success "" [⟨"get_forecast", J.obj []⟩])
    (fun _ _ => J.obj []) envOk
    (fun _ => OAOutcome.reply (some "") [⟨"call_1", "get_forecast", ""⟩])
    (fun _ _ => J.obj []) "task" "task" 3 (by omega)
    (fun k _ => ⟨"", [⟨"get_forecast", J.obj []⟩], rfl, by simp⟩)
    (fun k _ => ⟨"", [⟨"call_1", "get_forecast", J.obj []⟩], rfl, by simp⟩)
  exact ⟨h.1.1, h.1.2.1, h.2.1, h.2.2.2.1⟩

/-- **C2.** If the first successful model response carries an empty tool-call
list, the loop (Ollama and OpenAI implementations) terminates in exactly one
iteration, returning that response's text, `iterations = 1`, and an empty
`tool_calls_made` list. -/
theorem empty_toolcalls_one_iteration
    (envO : PyEnv) (oracleO : Nat → ChatOutcome) (execO : String → J → J)
    (envA : PyEnv) (oracleA : Nat → OAOutcome) (execA : String → J → J)
    (u₁ u₂ c₁ c₂ : String) (N : Nat) (hN : 1 ≤ N)
    (hO : oracleO 0 = ChatOutcome.success c₁ [])
    (hA : openaiChat envA (oracleA 0) = Except.ok (c₂, [])) :
    ollamaChatWithTools envO u₁ oracleO execO N = ⟨⟨c₁, [], some 1, none⟩, 1⟩
    ∧ openaiChatWithTools envA u₂ oracleA execA N
        = ⟨⟨c₂, [], some 1, none⟩, 1⟩ := by
  match N, hN with
  | n + 1, _ =>
    constructor
    · simp only [ollamaChatWithTools]
      rw [ollamaGo_done envO oracleO execO (n + 1) 0 n [OMsg.user u₁] [] c₁ hO]
    · simp only [openaiChatWithTools]
      rw [openaiGo_done envA oracleA execA (n + 1) 0 n [OAMsg.user u₂] [] c₂ hA]

/-- Witness for C2: a first response with no tool calls ends the run at once
with that text. -/
theorem empty_toolcalls_one_iteration_witness :
    ollamaChatWithTools envOk "task"
        (fun _ => ChatOutcome.success "all good" []) (fun _ _ => J.obj []) 5
      = ⟨⟨"all good", [], some 1, none⟩, 1⟩
    ∧ openaiChatWithTools envOk "task"
        (fun _ => OAOutcome.reply (some "all good") []) (fun _ _ => J.obj []) 5
      = ⟨⟨"all good", [], some 1, none⟩, 1⟩ :=
  empty_toolcalls_one_iteration envOk
    (fun _ => ChatOutcome.success "all good" []) (fun _ _ => J.obj [])
    envOk (fun _ => OAOutcome.reply (some "all good") []) (fun _ _ => J.obj [])
    "task" "task" "all good" "all good" 5 (by omega) rfl rfl

/-- **C3.** If the model chat call at iteration `k` returns an error, the
loop (Ollama and Anthropic implementations) stops at once — exactly `k + 1`
chat calls, so the failing call is not retried — and returns (rather than
raises) a result carrying that error kind and every `ToolRecord` collected in
the `k` earlier turns. -/
theorem model_error_returns_partial
    (envO : PyEnv) (oracleO : Nat → ChatOutcome) (execO : String → J → J)
    (envA : PyEnv) (oracleA : Nat → AnthOutcome) (execA : String → J → J)
    (u₁ u₂ e₁ e₂ : String) (N k₁ k₂ : Nat) (hk₁ : k₁ < N) (hk₂ : k₂ < N)
    (hO : ∀ j, j < k₁ →
      ∃ c tcs, oracleO j = ChatOutcome.success c tcs ∧ tcs ≠ [])
    (hOf : oracleO k₁ = ChatOutcome.failure e₁)
    (hA : ∀ j, j < k₂ →
      ∃ c tcs stop, oracleA j = AnthOutcome.success c tcs stop ∧
        (tcs.isEmpty || stop == some "end_turn") = false)
    (hAf : oracleA k₂ = AnthOutcome.failure e₂) :
    ollamaChatWithTools envO u₁ oracleO execO N
      = ⟨⟨"", ((List.range k₁).map
            (fun j => ollamaTurnRecs envO oracleO execO j)).flatten,
          none, some e₁⟩, k₁ + 1⟩
    ∧ anthChatWithTools envA u₂ oracleA execA N
      = ⟨⟨"", ((List.range k₂).map
            (fun j => anthTurnRecs oracleA execA j)).flatten,
          none, some e₂⟩, k₂ + 1⟩ := by
  constructor
  · simp only [ollamaChatWithTools]
    rw [ollamaGo_error envO oracleO execO N e₁ k₁ N 0 [OMsg.user u₁] [] hk₁
      (fun j hj => by simpa using hO j hj) (by simpa using hOf)]
    simp
  · simp only [anthChatWithTools]
    rw [anthGo_error envA oracleA execA N e₂ k₂ N 0 [AnthMsg.user u₂] [] hk₂
      (fun j hj => by simpa using hA j hj) (by simpa using hAf)]
    simp

/-- Witness for C3: one successful tool turn, then a timeout — the run stops
after the second chat call and returns the single collected record together
with the error kind. -/
theorem model_error_returns_partial_witness :
    ollamaChatWithTools envOk "task"
        (fun k => if k = 0
          then ChatOutcome.success "" [⟨"get_forecast", J.obj []⟩]
          else ChatOutcome.failure "timeout")
        (fun _ _ => J.obj [("hours", J.num 12)]) 5
      = ⟨⟨"",
          [⟨"get_forecast", J.obj [], J.obj [("hours", J.num 12)]⟩],
          none, some "timeout"⟩, 2⟩
    ∧ anthChatWithTools envOk "task"
        (fun k => if k = 0
          then AnthOutcome.success "" [⟨"toolu_1", "get_forecast", J.obj []⟩] none
          else AnthOutcome.failure "rate_limited")
        (fun _ _ => J.obj [("hours", J.num 12)]) 5
      = ⟨⟨"",
          [⟨"get_forecast", J.obj [], J.obj [("hours", J.num 12)]⟩],
          none, some "rate_limited"⟩, 2⟩ := by
  have h := model_error_returns_partial envOk
    (fun k => if k = 0
      then ChatOutcome.success "" [⟨"get_forecast", J.obj []⟩]
      else ChatOutcome.failure "timeout")
    (fun _ _ => J.obj [("hours", J.num 12)])
    envOk
    (fun k => if k = 0
      then AnthOutcome.success "" [⟨"toolu_1", "get_forecast", J.obj []⟩] none
      else AnthOutcome.failure "rate_limited")
    (fun _ _ => J.obj [("hours", J.num 12)])
    "task" "task" "timeout" "rate_limited" 5 1 1 (by omega) (by omega)
    (fun j hj => by
      interval_cases j
      exact ⟨"", [⟨"get_forecast", J.obj []⟩], rfl, by simp⟩)
    rfl
    (fun j hj => by
      interval_cases j
      exact ⟨"", [⟨"toolu_1", "get_forecast", J.obj []⟩], none, rfl, by simp⟩)
    rfl
  refine ⟨?_, ?_⟩
  · rw [h.1]
    rfl
  · rw [h.2]
    rfl

/-- **C4.** In every run (Ollama and OpenAI implementations), the
`tool_calls_made` sequence equals, element for element, the concatenation
over executed turns of the per-turn records, where each turn's records map
the requested tool calls in exactly the order the model response listed
them. -/
theorem tool_records_request_order
    (envO : PyEnv) (oracleO : Nat → ChatOutcome) (execO : String → J → J)
    (envA : PyEnv) (oracleA : Nat → OAOutcome) (execA : String → J → J)
    (u₁ u₂ : String) (N : Nat) :
    (∃ T, T ≤ N ∧
      (ollamaChatWithTools envO u₁ oracleO execO N).result.toolCallsMade
        = ((List.range T).map
            (fun j => ollamaTurnRecs envO oracleO execO j)).flatten)
    ∧ (∃ T, T ≤ N ∧
      (openaiChatWithTools envA u₂ oracleA execA N).result.toolCallsMade
        = ((List.range T).map
            (fun j => openaiTurnRecs envA oracleA execA j)).flatten) := by
  constructor
  · obtain ⟨T, hT, heq⟩ :=
      ollamaGo_trace envO oracleO execO N N 0 [OMsg.user u₁] []
    exact ⟨T, hT, by simpa [ollamaChatWithTools] using heq⟩
  · obtain ⟨T, hT, heq⟩ :=
      openaiGo_trace envA oracleA execA N N 0 [OAMsg.user u₂] []
    exact ⟨T, hT, by simpa [openaiChatWithTools] using heq⟩

/-- **C10.** Anthropic implementation: a successful response whose
`stop_reason` is `"end_turn"` is terminal — even with a non-empty tool-call
list the loop returns that response's text after one iteration, the
requested calls are never executed (for every executor the result is the
same and `tool_calls_made` stays empty). -/
theorem anthropic_end_turn_terminal
    (env : PyEnv) (oracle : Nat → AnthOutcome) (u c : String)
    (tcs : List AnthCall) (N : Nat) (hN : 1 ≤ N)
    (h0 : oracle 0 = AnthOutcome.success c tcs (some "end_turn")) :
    ∀ exec : String → J → J,
      anthChatWithTools env u oracle exec N = ⟨⟨c, [], some 1, none⟩, 1⟩ := by
  intro exec
  match N, hN with
  | n + 1, _ =>
    simp only [anthChatWithTools]
    rw [anthGo_done env oracle exec (n + 1) 0 n [AnthMsg.user u] [] c tcs
      (some "end_turn") h0 (by simp)]

/-- Witness for C10: `stop_reason = "end_turn"` with one pending `tool_use`
block — the run ends at once with the text, and no record is made. -/
theorem anthropic_end_turn_terminal_witness :
    anthChatWithTools envOk "task"
        (fun _ => AnthOutcome.success "final answer"
          [⟨"toolu_1", "set_thermostat_temperature",
            J.obj [("temperature", J.num 20)]⟩] (some "end_turn"))
        (fun _ _ => J.obj []) 6
      = ⟨⟨"final answer", [], some 1, none⟩, 1⟩ :=
  anthropic_end_turn_terminal envOk
    (fun _ => AnthOutcome.success "final answer"
      [⟨"toolu_1", "set_thermostat_temperature",
        J.obj [("temperature", J.num 20)]⟩] (some "end_turn"))
    "task" "final answer"
    [⟨"toolu_1", "set_thermostat_temperature",
      J.obj [("temperature", J.num 20)]⟩] 6 (by omega) rfl (fun _ _ => J.obj [])

/-- **C5 counterexample.** The claim fails on the OpenAI backend: in this
concrete run the model's tool call carries the string arguments
`"not json"`, which `json.loads` rejects; instead of falling back to `{}`
and continuing, the run aborts — the result carries the parse error as its
error kind and `tool_calls_made` is empty, so the executor never ran. -/
theorem string_args_openai_aborts_cex :
    (openaiChatWithTools envFail "task"
        (fun _ => OAOutcome.reply (some "")
          [⟨"call_1", "set_thermostat_temperature", "not json"⟩])
        (fun _ _ => J.obj []) 5).result.toolCallsMade = []
    ∧ (openaiChatWithTools envFail "task"
        (fun _ => OAOutcome.reply (some "")
          [⟨"call_1", "set_thermostat_temperature", "not json"⟩])
        (fun _ _ => J.obj []) 5).result.error
      = some "Expecting value: line 1 column 1 (char 0)" :=
  ⟨rfl, rfl⟩

/-- **C5 (amended).** String-typed tool-call arguments are JSON-parsed, but
the two backends that can deliver them diverge on parse failure: the Ollama
loop falls back to `{}` and the run continues (here: executes the call with
`{}` and finishes normally on the next turn), while the OpenAI adapter
propagates the parse failure out of `chat`, so the run aborts with an error
result, no fallback, and no executed tool call. -/
theorem string_args_normalization
    (envO : PyEnv) (execO : String → J → J) (oracleO : Nat → ChatOutcome)
    (u₁ c₀ c₁ nm s e : String) (N : Nat) (hN : 2 ≤ N)
    (hs : envO.jloads s = Except.error e)
    (h0 : oracleO 0 = ChatOutcome.success c₀ [⟨nm, J.str s⟩])
    (h1 : oracleO 1 = ChatOutcome.success c₁ [])
    (envA : PyEnv) (execA : String → J → J) (oracleA : Nat → OAOutcome)
    (u₂ id₂ nm₂ s₂ e₂ : String) (M : Nat) (hM : 1 ≤ M)
    (hs₂ : envA.jloads s₂ = Except.error e₂) (hs₂ne : s₂ ≠ "")
    (hA0 : oracleA 0 = OAOutcome.reply (some "") [⟨id₂, nm₂, s₂⟩]) :
    ollamaChatWithTools envO u₁ oracleO execO N
      = ⟨⟨c₁, [⟨nm, J.obj [], execO nm (J.obj [])⟩], some 2, none⟩, 2⟩
    ∧ openaiChatWithTools envA u₂ oracleA execA M
      = ⟨⟨"", [], none, some e₂⟩, 1⟩ := by
  constructor
  · match N, hN with
    | n + 2, _ =>
      simp only [ollamaChatWithTools]
      rw [ollamaGo_tools envO oracleO execO (n + 2) 0 (n + 1)
        [OMsg.user u₁] [] c₀ ⟨nm, J.str s⟩ [] h0]
      simp only []
      rw [ollamaGo_done envO oracleO execO (n + 2) 1 n
        ([OMsg.user u₁] ++ [OMsg.assistant c₀ [⟨nm, J.str s⟩]]
          ++ [⟨nm, J.str s⟩].map (fun tc =>
              OMsg.tool (dumpResult envO (ollamaRecord envO execO tc).result)))
        ([] ++ [⟨nm, J.str s⟩].map (ollamaRecord envO execO)) c₁ h1]
      simp [ollamaRecord, normalizeArgs, hs]
  · have hchat : openaiChat envA (oracleA 0) = Except.error e₂ := by
      rw [hA0]
      simp [openaiChat, oaParseCalls, oaParseArgs, hs₂ne, hs₂]
    match M, hM with
    | m + 1, _ =>
      simp only [openaiChatWithTools]
      rw [openaiGo_err envA oracleA execA (m + 1) 0 m [OAMsg.user u₂] [] e₂ hchat]

/-- Witness for the amended C5: `"not json"` arguments — Ollama records the
call with `{}` and finishes, OpenAI aborts with the parse error. -/
theorem string_args_normalization_witness :
    ollamaChatWithTools envFail "task"
        (fun k => if k = 0
          then ChatOutcome.success "" [⟨"set_hvac_mode", J.str "not json"⟩]
          else ChatOutcome.success "done" [])
        (fun _ _ => J.obj [("ok", J.bool true)]) 5
      = ⟨⟨"done",
          [⟨"set_hvac_mode", J.obj [], J.obj [("ok", J.bool true)]⟩],
          some 2, none⟩, 2⟩
    ∧ openaiChatWithTools envFail "task"
        (fun _ => OAOutcome.reply (some "")
          [⟨"call_1", "set_hvac_mode", "not json"⟩])
        (fun _ _ => J.obj [("ok", J.bool true)]) 5
      = ⟨⟨"", [], none,
          some "Expecting value: line 1 column 1 (char 0)"⟩, 1⟩ :=
  string_args_normalization envFail (fun _ _ => J.obj [("ok", J.bool true)])
    (fun k => if k = 0
      then ChatOutcome.success "" [⟨"set_hvac_mode", J.str "not json"⟩]
      else ChatOutcome.success "done" [])
    "task" "" "done" "set_hvac_mode" "not json"
    "Expecting value: line 1 column 1 (char 0)" 5 (by omega) rfl rfl rfl
    envFail (fun _ _ => J.obj [("ok", J.bool true)])
    (fun _ => OAOutcome.reply (some "") [⟨"call_1", "set_hvac_mode", "not json"⟩])
    "task" "call_1" "set_hvac_mode" "not json"
    "Expecting value: line 1 column 1 (char 0)" 5 (by omega) rfl
    (by decide) rfl

lemma classifyBody_rpc (env : PyEnv) (i c : Int) (m : String) :
    classifyBody env (Envelope.err i c m).toJson
      = J.obj [("error", J.str m)] := rfl

lemma classifyBody_text (env : PyEnv) (i : Int) (s : String) (rest : List J) :
    classifyBody env (Envelope.res i (textItem s :: rest)).toJson
      = match env.jloads s with
        | Except.ok v => v
        | Except.error e => invalidJsonResult s e := by
  have hstep : classifyBody env (Envelope.res i (textItem s :: rest)).toJson
      = match (match env.jloads s with
               | Except.ok v => Except.ok v
               | Except.error e =>
                 Except.ok (invalidJsonResult s e) : Except String J) with
        | Except.ok v => v
        | Except.error e => J.obj [("error", J.str e)] := rfl
  rw [hstep]
  cases env.jloads s <;> rfl

lemma classifyBody_empty (env : PyEnv) (i : Int) :
    classifyBody env (Envelope.res i []).toJson
      = J.obj [("content", J.arr [])] := rfl

/-- **C6.** Every well-formed JSON-RPC reply handled by `call_tool` falls
into exactly one of three classes, and `classifyBody` (which never raises —
it is a total function into result dicts) maps each class to its mandated
shape: (b) an RPC-level error object is surfaced as `{"error": message}`;
(c) a leading text payload that fails to parse as JSON is surfaced as the
error result carrying the fixed `"Invalid JSON response"` marker, the
original raw text, and the parse error; (a) otherwise the structured result —
the parsed JSON value, or the content passthrough. -/
theorem call_tool_reply_classification (env : PyEnv) (r : Envelope) :
    ((replyIsRpcError r ∧ ¬ replyIsBadText env r ∧ ¬ replyIsStructured env r)
      ∨ (¬ replyIsRpcError r ∧ replyIsBadText env r
          ∧ ¬ replyIsStructured env r)
      ∨ (¬ replyIsRpcError r ∧ ¬ replyIsBadText env r
          ∧ replyIsStructured env r))
    ∧ (∀ i c m, r = Envelope.err i c m →
        classifyBody env r.toJson = J.obj [("error", J.str m)])
    ∧ (∀ i s rest e, r = Envelope.res i (textItem s :: rest) →
        env.jloads s = Except.error e →
        classifyBody env r.toJson = invalidJsonResult s e)
    ∧ (∀ i s rest v, r = Envelope.res i (textItem s :: rest) →
        env.jloads s = Except.ok v →
        classifyBody env r.toJson = v)
    ∧ (∀ i, r = Envelope.res i [] →
        classifyBody env r.toJson = J.obj [("content", J.arr [])]) := by
  refine ⟨?_, ?_, ?_, ?_, ?_⟩
  · cases r with
    | err i c m =>
      exact Or.inl ⟨trivial, fun h => h, fun hs => hs.1 trivial⟩
    | res i items =>
      by_cases hb : replyIsBadText env (Envelope.res i items)
      · exact Or.inr (Or.inl ⟨fun h => h, hb, fun hs => hs.2 hb⟩)
      · exact Or.inr (Or.inr ⟨fun h => h, hb, fun h => h, hb⟩)
  · rintro i c m rfl
    exact classifyBody_rpc env i c m
  · rintro i s rest e rfl h
    rw [classifyBody_text env i s rest, h]
  · rintro i s rest v rfl h
    rw [classifyBody_text env i s rest, h]
  · rintro i rfl
    exact classifyBody_empty env i

/-- Witness for C6: an unparseable text payload yields the invalid-JSON
error result (marker, raw text, parse error) without raising, and an RPC
error envelope yields `{"error": message}`. -/
theorem call_tool_reply_classification_witness :
    classifyBody envFail (Envelope.res 1 [textItem "oops"]).toJson
      = invalidJsonResult "oops" "Expecting value: line 1 column 1 (char 0)"
    ∧ classifyBody envFail (Envelope.err 1 (-32603) "boom").toJson
      = J.obj [("error", J.str "boom")] :=
  ⟨(call_tool_reply_classification envFail
      (Envelope.res 1 [textItem "oops"])).2.2.1 1 "oops" []
      "Expecting value: line 1 column 1 (char 0)" rfl rfl,
   (call_tool_reply_classification envFail
      (Envelope.err 1 (-32603) "boom")).2.1 1 (-32603) "boom" rfl⟩

/-- **C7.** The transport retry policy of `call_tool`: at most 3 total HTTP
attempts; three consecutive connection-level failures exhaust the retries
with backoff waits of 1 s then 2 s (the `min (2^(n-1)) 10` schedule is
strictly increasing until it caps at 10 s, base 1 s) and the failure then
surfaces to the caller as an error result; a successfully received RPC-level
error payload is returned as `{"error": message}` after a single attempt and
is never retried. -/
theorem call_tool_retry_policy :
    (∀ net : Nat → NetOutcome, (makeRequest net).attempts ≤ 3)
    ∧ (∀ (net : Nat → NetOutcome) (m₁ m₂ m₃ : String),
        net 1 = NetOutcome.connError m₁ → net 2 = NetOutcome.connError m₂ →
        net 3 = NetOutcome.connError m₃ →
        makeRequest net = ⟨Except.error (ReqErr.conn m₃), 3, [1, 2]⟩)
    ∧ (∀ n, 1 ≤ n → backoffWait n ≤ 10
        ∧ (backoffWait n < 10 → backoffWait n < backoffWait (n + 1)))
    ∧ (∀ (env : PyEnv) (net : J → Nat → NetOutcome) (name : String)
        (args? : Option J) (i c : Int) (m : String),
        net (callToolPayload name (args?.getD (J.obj []))) 1
            = NetOutcome.ok (Envelope.err i c m).toJson →
        callTool env net name args? = ⟨J.obj [("error", J.str m)], 1, []⟩)
    ∧ (∀ (env : PyEnv) (net : J → Nat → NetOutcome) (name : String)
        (args? : Option J) (m : String),
        (∀ k, net (callToolPayload name (args?.getD (J.obj []))) k
            = NetOutcome.connError m) →
        callTool env net name args?
          = ⟨J.obj [("error", J.str ("Connection error: " ++ m))],
             3, [1, 2]⟩) := by
  refine ⟨?_, ?_, ?_, ?_, ?_⟩
  · intro net
    cases h1 : net 1 <;> cases h2 : net 2 <;> cases h3 : net 3 <;>
      simp [makeRequest, makeRequestGo, h1, h2, h3]
  · intro net m₁ m₂ m₃ h1 h2 h3
    simp [makeRequest, makeRequestGo, h1, h2, h3, backoffWait]
  · intro n hn
    have hpow : 2 ^ (n - 1) * 2 = 2 ^ n := by
      rw [← pow_succ]
      congr 1
      omega
    have h1 : 1 ≤ 2 ^ (n - 1) := Nat.one_le_two_pow
    constructor
    · exact Nat.min_le_right _ _
    · intro hlt
      have hn1 : n + 1 - 1 = n := by omega
      unfold backoffWait at *
      rw [hn1]
      omega
  · intro env net name args? i c m h
    simp [callTool, makeRequest, makeRequestGo, h, classifyBody_rpc]
  · intro env net name args? m h
    simp [callTool, makeRequest, makeRequestGo, h 1, h 2, h 3, backoffWait]

/-- Witness for C7: a permanently refused connection exhausts exactly 3
attempts with waits 1 s and 2 s; an RPC error envelope is surfaced as
`{"error": ...}` after one attempt. -/
theorem call_tool_retry_policy_witness :
    makeRequest (fun _ => NetOutcome.connError "Connection refused")
      = ⟨Except.error (ReqErr.conn "Connection refused"), 3, [1, 2]⟩
    ∧ callTool envOk
        (fun _ _ => NetOutcome.ok (Envelope.err 1 (-32000) "tool failed").toJson)
        "get_forecast" none
      = ⟨J.obj [("error", J.str "tool failed")], 1, []⟩ :=
  ⟨call_tool_retry_policy.2.1
      (fun _ => NetOutcome.connError "Connection refused")
      "Connection refused" "Connection refused" "Connection refused"
      rfl rfl rfl,
   call_tool_retry_policy.2.2.2.1 envOk
      (fun _ _ => NetOutcome.ok (Envelope.err 1 (-32000) "tool failed").toJson)
      "get_forecast" none 1 (-32000) "tool failed" rfl⟩

/-- **C8.** With the tool list the agent supplies (the union of the two MCP
servers' advertised names, i.e. exactly `weatherTools ++ haTools`),
`execute_tool` never routes a name outside that list to a transport: a name
absent from the list is routed nowhere and produces the explicit
`{"error": "Unknown tool: ..."}` result; and the loop records every
requested call — one `ToolRecord` per request, in request order — so no
request is silently dropped. -/
theorem unknown_tool_routing
    (L : List String)
    (hL : ∀ n, n ∈ L ↔ (n ∈ weatherTools ∨ n ∈ haTools))
    (wcall hcall : String → J → J) (env : PyEnv)
    (oracle : Nat → ChatOutcome) (u : String) (N : Nat) :
    (∀ name, (routeTool name).isSome → name ∈ L)
    ∧ (∀ name args, name ∉ L →
        routeTool name = none
        ∧ executeTool wcall hcall name args
            = J.obj [("error", J.str ("Unknown tool: " ++ name))])
    ∧ (∃ T, T ≤ N ∧
        (ollamaChatWithTools env u oracle
            (executeTool wcall hcall) N).result.toolCallsMade
          = ((List.range T).map (fun j =>
              ollamaTurnRecs env oracle (executeTool wcall hcall) j)).flatten) := by
  refine ⟨?_, ?_, ?_⟩
  · intro name h
    rw [hL]
    by_cases h1 : name ∈ weatherTools
    · exact Or.inl h1
    · by_cases h2 : name ∈ haTools
      · exact Or.inr h2
      · simp [routeTool, h1, h2] at h
  · intro name args hname
    rw [hL] at hname
    have h1 : name ∉ weatherTools := fun hc => hname (Or.inl hc)
    have h2 : name ∉ haTools := fun hc => hname (Or.inr hc)
    exact ⟨by simp [routeTool, h1, h2], by simp [executeTool, h1, h2]⟩
  · obtain ⟨T, hT, heq⟩ := ollamaGo_trace env oracle
      (executeTool wcall hcall) N N 0 [OMsg.user u] []
    exact ⟨T, hT, by simpa [ollamaChatWithTools] using heq⟩

/-- Witness for C8: with the concrete supplied list, the made-up name
`"bogus_tool"` is routed to no transport and yields the explicit
unknown-tool error. -/
theorem unknown_tool_routing_witness :
    routeTool "bogus_tool" = none
    ∧ executeTool (fun _ _ => J.obj []) (fun _ _ => J.obj [])
        "bogus_tool" (J.obj [])
      = J.obj [("error", J.str "Unknown tool: bogus_tool")] :=
  (unknown_tool_routing (weatherTools ++ haTools)
    (fun n => List.mem_append)
    (fun _ _ => J.obj []) (fun _ _ => J.obj []) envOk
    (fun _ => ChatOutcome.success "" []) "task" 1).2.1
    "bogus_tool" (J.obj []) (by decide)


lemma anthConvertOne_std (t : StdTool) :
    anthConvertOne t.toJson = Except.ok (anthNative t) := rfl

lemma specAnthInverse_native (t : StdTool) :
    specAnthInverse (anthNative t) = t.toJson := rfl

lemma anthropicConvertTools_std (ts : List StdTool) :
    anthropicConvertTools (ts.map StdTool.toJson)
      = Except.ok (ts.map anthNative) := by
  induction ts with
  | nil => rfl
  | cons t rest ih => simp [anthropicConvertTools, anthConvertOne_std, ih]

lemma convertProp_std (q : StdProp) :
    convertProp q.toJson
      = Except.ok (GProp.mk (gtypeOf ((q.propType).getD "string"))
          ((q.propDescription).getD "")) := by
  obtain ⟨n, ty, ds⟩ := q
  cases ty <;> cases ds <;> rfl

lemma convertProps_std (qs : List StdProp) :
    convertProps (qs.map (fun q => (q.name, q.toJson)))
      = Except.ok (gpropsOf qs) := by
  induction qs with
  | nil => rfl
  | cons q rest ih => simp [convertProps, gpropsOf, convertProp_std, ih]

lemma convertParameters_std (p : StdParams) :
    convertParameters p.toJson
      = Except.ok (some (GSchema.mk GType.OBJECT (gpropsOf p.props)
          (J.arr (p.required.map J.str)))) := by
  have hstep : convertParameters p.toJson
      = Except.bind (convertProps (p.props.map (fun q => (q.name, q.toJson))))
          (fun properties => Except.ok (some (GSchema.mk GType.OBJECT
            properties (J.arr (p.required.map J.str))))) := rfl
  rw [hstep, convertProps_std]
  rfl

lemma googleConvertOne_std (g : String × String × StdParams) :
    googleConvertOne (StdTool.mk g.1 g.2.1 g.2.2.toJson).toJson
      = Except.ok (gfdOf g) := rfl

lemma buildDecl_std (g : String × String × StdParams) :
    buildDecl (gfdOf g) = Except.ok (gdeclOf g) := by
  have hstep : buildDecl (gfdOf g)
      = Except.bind (convertParameters g.2.2.toJson)
          (fun ps => Except.ok (GFuncDecl.mk g.1 g.2.1 ps)) := rfl
  rw [hstep, convertParameters_std]
  rfl

lemma googleConvertTools_std (gs : List (String × String × StdParams)) :
    googleConvertTools
        (gs.map (fun g => (StdTool.mk g.1 g.2.1 g.2.2.toJson).toJson))
      = Except.ok (gs.map gfdOf) := by
  induction gs with
  | nil => rfl
  | cons g rest ih => simp [googleConvertTools, googleConvertOne_std, ih]

lemma buildDecls_std (gs : List (String × String × StdParams)) :
    buildDecls (gs.map gfdOf) = Except.ok (gs.map gdeclOf) := by
  induction gs with
  | nil => rfl
  | cons g rest ih => simp [buildDecls, buildDecl_std, ih]

lemma buildGeminiTools_cons (t : J) (rest : List J) :
    buildGeminiTools (t :: rest)
      = match googleConvertTools (t :: rest) with
        | Except.error e => Except.error e
        | Except.ok fds =>
          match buildDecls fds with
          | Except.error e => Except.error e
          | Except.ok decls => Except.ok (some decls) := by
  simp [buildGeminiTools]

lemma specGoogleInverse_name (d : GFuncDecl) :
    stdName (specGoogleInverse d) = some (J.str d.name) := by
  obtain ⟨nm, ds, ps⟩ := d
  cases ps <;> rfl

lemma specGoogleInverse_required (nm ds : String) (sch : GSchema) :
    stdRequired (specGoogleInverse (GFuncDecl.mk nm ds (some sch)))
      = sch.required := rfl

/-- **C9 counterexample.** The claim fails on the Google pipeline: this
standard-shape tool has a legal parameter schema with a `required` list but
no `properties` member; `_convert_parameters` returns `None` for it
(google.py lines 104-105), so the produced `FunctionDeclaration` carries no
parameter schema at all and the inverse mapping recovers an empty `required`
list instead of `["temperature"]`. -/
theorem convert_required_google_cex :
    buildGeminiTools [toolNoProps]
      = Except.ok (some [GFuncDecl.mk "set_thermostat_temperature"
          "Set the thermostat target temperature" none])
    ∧ stdRequired toolNoProps = J.arr [J.str "temperature"]
    ∧ stdRequired (specGoogleInverse (GFuncDecl.mk
        "set_thermostat_temperature"
        "Set the thermostat target temperature" none)) = J.arr []
    ∧ J.arr ([] : List J) ≠ J.arr [J.str "temperature"] := by
  refine ⟨rfl, rfl, rfl, ?_⟩
  intro h
  injection h with h'
  exact List.noConfusion h'

/-- **C9 (amended).** `convertTools` followed by the backend-specific inverse
preserves each tool's `name` and the `required` list of its parameter
schema: for Anthropic on every standard-shape list (the round trip is the
identity), and for Google on every non-empty standard-shape list whose
parameter schemas carry a (possibly empty) `properties` member — when
`properties` is absent the Google conversion drops the schema, and the
`required` list with it (see the counterexample). -/
theorem convert_roundtrip_preserves
    (ts : List StdTool)
    (gs : List (String × String × StdParams)) (hgs : gs ≠ []) :
    (anthropicConvertTools (ts.map StdTool.toJson)
        = Except.ok (ts.map anthNative)
      ∧ (ts.map anthNative).map specAnthInverse = ts.map StdTool.toJson)
    ∧ (buildGeminiTools (gs.map (fun g =>
          (StdTool.mk g.1 g.2.1 g.2.2.toJson).toJson))
        = Except.ok (some (gs.map gdeclOf))
      ∧ (gs.map gdeclOf).map (fun d => stdName (specGoogleInverse d))
          = gs.map (fun g => some (J.str g.1))
      ∧ (gs.map gdeclOf).map (fun d => stdRequired (specGoogleInverse d))
          = gs.map (fun g => J.arr (g.2.2.required.map J.str))
      ∧ gs.map (fun g =>
            stdRequired (StdTool.mk g.1 g.2.1 g.2.2.toJson).toJson)
          = gs.map (fun g => J.arr (g.2.2.required.map J.str))) := by
  refine ⟨⟨anthropicConvertTools_std ts, ?_⟩, ?_, ?_, ?_, ?_⟩
  · induction ts with
    | nil => rfl
    | cons t rest ih => simp only [List.map_cons, specAnthInverse_native, ih]
  · match gs, hgs with
    | g :: rest, _ =>
      have h1 := googleConvertTools_std (g :: rest)
      have h2 := buildDecls_std (g :: rest)
      rw [List.map_cons] at h1 h2 ⊢
      rw [buildGeminiTools_cons, h1]
      simp [h2]
  · have key : ∀ us : List (String × String × StdParams),
        (us.map gdeclOf).map (fun d => stdName (specGoogleInverse d))
          = us.map (fun g => some (J.str g.1)) := by
      intro us
      induction us with
      | nil => rfl
      | cons g rest ih =>
        rw [List.map_cons, List.map_cons, ih, specGoogleInverse_name]
        exact rfl
    exact key gs
  · have key : ∀ us : List (String × String × StdParams),
        (us.map gdeclOf).map (fun d => stdRequired (specGoogleInverse d))
          = us.map (fun g => J.arr (g.2.2.required.map J.str)) := by
      intro us
      induction us with
      | nil => rfl
      | cons g rest ih =>
        rw [List.map_cons, List.map_cons, ih]
        exact rfl
    exact key gs
  · have key : ∀ us : List (String × String × StdParams),
        us.map (fun g =>
            stdRequired (StdTool.mk g.1 g.2.1 g.2.2.toJson).toJson)
          = us.map (fun g => J.arr (g.2.2.required.map J.str)) := by
      intro us
      induction us with
      | nil => rfl
      | cons g rest ih =>
        rw [List.map_cons, List.map_cons, ih]
        exact rfl
    exact key gs

/-- Witness for the amended C9: a concrete weather tool round-trips through
both converters with its name and `required` list intact. -/
theorem convert_roundtrip_preserves_witness :
    (([("get_forecast", "Get weather forecast",
          StdParams.mk [StdProp.mk "hours" (some "integer")
            (some "Number of hours")] ["hours"])].map gdeclOf).map
          (fun d => stdRequired (specGoogleInverse d))
        = [("get_forecast", "Get weather forecast",
            StdParams.mk [StdProp.mk "hours" (some "integer")
              (some "Number of hours")] ["hours"])].map
            (fun g => J.arr (g.2.2.required.map J.str)))
    ∧ ([StdTool.mk "get_forecast" "Get weather forecast"
          (StdParams.mk [StdProp.mk "hours" (some "integer")
            (some "Number of hours")] ["hours"]).toJson].map anthNative).map
          specAnthInverse
        = [StdTool.mk "get_forecast" "Get weather forecast"
            (StdParams.mk [StdProp.mk "hours" (some "integer")
              (some "Number of hours")] ["hours"]).toJson].map StdTool.toJson :=
  have h := convert_roundtrip_preserves
    [StdTool.mk "get_forecast" "Get weather forecast"
      (StdParams.mk [StdProp.mk "hours" (some "integer")
        (some "Number of hours")] ["hours"]).toJson]
    [("get_forecast", "Get weather forecast",
      StdParams.mk [StdProp.mk "hours" (some "integer")
        (some "Number of hours")] ["hours"])]
    (by simp)
  ⟨h.2.2.2.1, h.1.2⟩
